import Mathlib

/-!
Verification development for the SQLGenie rewrite engine
(`src/optimizer.py` of umangpawar1995/sqlgenie).

The core of the repository is `optimize_sql` (optimizer.py:65-119), which
first tries a structural rewriter `optimize_sql_with_sqlglot`
(optimizer.py:8-63) built on the external sqlglot parser, and falls back to a
regex-based text rewriter when the structural path yields a falsy result.

Embedding conventions:
* Queries are Lean `String`s; all scanning works over `List Char` (`String.data`).
* The regex patterns of the fallback path (`re.search` / `re.sub` with
  `re.IGNORECASE`) are embedded as dedicated scanner functions with Python's
  leftmost, greedy-with-backtracking semantics.  Character classes `\w`, `\s`,
  `\d` are modelled by their ASCII parts (the only characters the queries of
  this development use).
* The external libraries (sqlglot, sqlparse) are not part of the repository;
  their behaviour is modelled from the spec where indicated
  (`Modelled from the spec:` doc comments).
* Fallible Python code (the `raise ValueError` in `optimize_sql`) is embedded
  with `Except String`.
* Recursive tree traversals use explicit fuel (`sizeOf`-based upper bounds) so
  that every definition is a computable structural recursion.
-/

namespace SqlGenie

/-! ### Character classes (ASCII model of Python's `\s`, `\w`, `\d`) -/

/-- ASCII model of Python regex `\s` (also used for `str.strip`). -/
def isSpaceC (c : Char) : Bool :=
  c = ' ' || c = '\t' || c = '\n' || c = '\r' || c = '\x0b' || c = '\x0c'

/-- ASCII model of Python regex `\w`: letters, digits, underscore. -/
def isWordC (c : Char) : Bool :=
  c.isAlphanum || c = '_'

/-- ASCII model of Python regex `\d`. -/
def isDigitC (c : Char) : Bool := c.isDigit

/-- The character class `[\w\s,]` of the FROM-clause regex (optimizer.py:88). -/
def isFromClassC (c : Char) : Bool :=
  isWordC c || isSpaceC c || c = ','

/-- The character class `[\w\*,\s]` of the IN-subquery regex (optimizer.py:110). -/
def isInClassC (c : Char) : Bool :=
  isWordC c || c = '*' || c = ',' || isSpaceC c

/-! ### Generic list scanning helpers -/

/-- Case-insensitive match of a literal pattern at the head of the input;
returns the remaining input on success. -/
def matchCI : List Char → List Char → Option (List Char)
  | [], l => some l
  | _ :: _, [] => none
  | p :: ps, c :: cs => if p.toLower = c.toLower then matchCI ps cs else none

/-- Length of the maximal run of characters satisfying `f` at the head. -/
def runLen (f : Char → Bool) : List Char → Nat
  | [] => 0
  | c :: cs => if f c then runLen f cs + 1 else 0

/-- Case-sensitive prefix test. -/
def isPrefixL : List Char → List Char → Bool
  | [], _ => true
  | _ :: _, [] => false
  | p :: ps, c :: cs => p == c && isPrefixL ps cs

/-- Case-sensitive substring test. -/
def containsL (pat : List Char) : List Char → Bool
  | [] => isPrefixL pat []
  | c :: cs => isPrefixL pat (c :: cs) || containsL pat cs

/-- Case-insensitive prefix test. -/
def isPrefixCIL : List Char → List Char → Bool
  | [], _ => true
  | _ :: _, [] => false
  | p :: ps, c :: cs => p.toLower == c.toLower && isPrefixCIL ps cs

/-- Case-insensitive substring test (used for Python's `'DISTINCT' in g.upper()`). -/
def containsCIL (pat : List Char) : List Char → Bool
  | [] => isPrefixCIL pat []
  | c :: cs => isPrefixCIL pat (c :: cs) || containsCIL pat cs

/-- Substring test on strings. -/
def containsStr (s pat : String) : Bool := containsL pat.data s.data

/-! ### The individual regex patterns of the fallback rewriter -/

/-- Match of `SELECT\s*\*` (IGNORECASE) at the head of the input; returns the
length of the match.  Greedy `\s*` is deterministic here because `*` is not a
whitespace character. -/
def selectStarAt (l : List Char) : Option Nat :=
  match matchCI "select".data l with
  | none => none
  | some r =>
    let n := runLen isSpaceC r
    match r.drop n with
    | '*' :: _ => some (6 + n + 1)
    | _ => none

/-- Search for `SELECT\s*\*` (IGNORECASE) as a Bool (optimizer.py:82). -/
def searchSelectStar : List Char → Bool
  | [] => (selectStarAt []).isSome
  | c :: cs => (selectStarAt (c :: cs)).isSome || searchSelectStar cs

/-- One scanning pass of `re.sub(r"SELECT\s*\*", "SELECT col1, col2", ...)`
(optimizer.py:86): replace every non-overlapping leftmost match.  The fuel is
an upper bound on the number of scanning steps (each step consumes at least
one character). -/
def subStarGo : Nat → List Char → List Char
  | 0, l => l
  | _ + 1, [] => []
  | fuel + 1, c :: cs =>
    match selectStarAt (c :: cs) with
    | some n => "SELECT col1, col2".data ++ subStarGo fuel ((c :: cs).drop n)
    | none => c :: subStarGo fuel cs

def subStarAll (l : List Char) : List Char := subStarGo (l.length + 1) l

/-- Match of `FROM\s+([\w\s,]+)` (IGNORECASE) at the head of the input,
returning `(matchLength, group1)`.  Because `\s ⊆ [\w\s,]`, Python's greedy
backtracking resolves as follows: after the maximal whitespace run `w`,
group 1 is the maximal `[\w\s,]` run if it is non-empty; otherwise `\s+`
gives back one whitespace character (possible only when `w ≥ 2`) and group 1
is that single whitespace character. -/
def fromAt (l : List Char) : Option (Nat × List Char) :=
  match matchCI "from".data l with
  | none => none
  | some r =>
    let w := runLen isSpaceC r
    if w = 0 then none
    else
      let rest := r.drop w
      let cRun := runLen isFromClassC rest
      if 0 < cRun then some (4 + w + cRun, rest.take cRun)
      else if 2 ≤ w then some (4 + w, (r.take w).drop (w - 1))
      else none

/-- Search for `FROM\s+([\w\s,]+)` (IGNORECASE) returning group 1 of the
leftmost match (optimizer.py:88). -/
def searchFrom : List Char → Option (List Char)
  | [] => (fromAt []).map (·.2)
  | c :: cs =>
    match fromAt (c :: cs) with
    | some (_, g) => some g
    | none => searchFrom cs

/-- Substitution of `FROM\s+([\w\s,]+)` by a fixed replacement string
(optimizer.py:94). -/
def subFromGo (rep : List Char) : Nat → List Char → List Char
  | 0, l => l
  | _ + 1, [] => []
  | fuel + 1, c :: cs =>
    match fromAt (c :: cs) with
    | some (n, _) => rep ++ subFromGo rep fuel ((c :: cs).drop n)
    | none => c :: subFromGo rep fuel cs

def subFromAll (rep : List Char) (l : List Char) : List Char :=
  subFromGo rep (l.length + 1) l

/-- Match of `IN\s*\(\s*SELECT` (IGNORECASE) at the head of the input;
returns the length of the match (deterministic: `(` and `S` are not
whitespace). -/
def inSelectAt (l : List Char) : Option Nat :=
  match matchCI "in".data l with
  | none => none
  | some r =>
    let s1 := runLen isSpaceC r
    match r.drop s1 with
    | '(' :: r2 =>
      let s2 := runLen isSpaceC r2
      match matchCI "select".data (r2.drop s2) with
      | some _ => some (2 + s1 + 1 + s2 + 6)
      | none => none
    | _ => none

/-- Search for `IN\s*\(\s*SELECT` (IGNORECASE) (optimizer.py:96). -/
def searchInSelect : List Char → Bool
  | [] => (inSelectAt []).isSome
  | c :: cs => (inSelectAt (c :: cs)).isSome || searchInSelect cs

/-- Substitution of `IN\s*\(\s*SELECT` by `IN (SELECT DISTINCT` (optimizer.py:114). -/
def subInSelectGo : Nat → List Char → List Char
  | 0, l => l
  | _ + 1, [] => []
  | fuel + 1, c :: cs =>
    match inSelectAt (c :: cs) with
    | some n => "IN (SELECT DISTINCT".data ++ subInSelectGo fuel ((c :: cs).drop n)
    | none => c :: subInSelectGo fuel cs

def subInSelectAll (l : List Char) : List Char := subInSelectGo (l.length + 1) l

/-- Match of `LIMIT\s+\d+` (IGNORECASE) at the head of the input
(deterministic greediness: digits are not whitespace). -/
def limitAt (l : List Char) : Option Nat :=
  match matchCI "limit".data l with
  | none => none
  | some r =>
    let w := runLen isSpaceC r
    if w = 0 then none
    else
      let d := runLen isDigitC (r.drop w)
      if 0 < d then some (5 + w + d) else none

/-- Search for `LIMIT\s+\d+` (IGNORECASE) (optimizer.py:102). -/
def searchLimit : List Char → Bool
  | [] => (limitAt []).isSome
  | c :: cs => (limitAt (c :: cs)).isSome || searchLimit cs

/-! Pattern `IN\s*\(\s*SELECT\s+([\w\*,\s]+)\s+FROM` (optimizer.py:110).
After `SELECT`, the three greedy pieces `\s+`, `([\w\*,\s]+)`, `\s+` interact
through backtracking because `\s` is contained in the group's class.  The
regex engine prefers the longest `\s+`, then the longest group, then the
longest trailing `\s+`; the literal `FROM` must follow.  `fromAfterSpaces`
checks whether some split of the trailing whitespace (length between 1 and
its first argument) is followed by `FROM`; `tryB` backtracks over the group
length, `tryA` over the leading whitespace length. -/

def fromAfterSpaces : Nat → List Char → Bool
  | 0, _ => false
  | c + 1, rest => (matchCI "from".data (rest.drop (c + 1))).isSome || fromAfterSpaces c rest

def tryB : Nat → List Char → Option (List Char)
  | 0, _ => none
  | b + 1, rest1 =>
    let rest2 := rest1.drop (b + 1)
    if fromAfterSpaces (runLen isSpaceC rest2) rest2 then some (rest1.take (b + 1))
    else tryB b rest1

def tryA : Nat → List Char → Option (List Char)
  | 0, _ => none
  | a + 1, t =>
    let rest1 := t.drop (a + 1)
    match tryB (runLen isInClassC rest1) rest1 with
    | some g => some g
    | none => tryA a t

/-- Match of `IN\s*\(\s*SELECT\s+([\w\*,\s]+)\s+FROM` at the head of the
input, returning group 1. -/
def inSelFromAt (l : List Char) : Option (List Char) :=
  match matchCI "in".data l with
  | none => none
  | some r =>
    let s1 := runLen isSpaceC r
    match r.drop s1 with
    | '(' :: r2 =>
      let s2 := runLen isSpaceC r2
      match matchCI "select".data (r2.drop s2) with
      | some t => tryA (runLen isSpaceC t) t
      | none => none
    | _ => none

/-- Search for the dedup pattern, returning group 1 of the leftmost
match (optimizer.py:110). -/
def searchInSelFrom : List Char → Option (List Char)
  | [] => inSelFromAt []
  | c :: cs =>
    match inSelFromAt (c :: cs) with
    | some g => some g
    | none => searchInSelFrom cs

/-! ### Python string helpers used by the fallback (strip, split, endswith) -/

/-- Python `str.strip()` on a character list. -/
def stripL (l : List Char) : List Char :=
  ((l.dropWhile isSpaceC).reverse.dropWhile isSpaceC).reverse

/-- Python `str.split(',')`: split at every comma, keeping empty pieces. -/
def splitComma : List Char → List (List Char)
  | [] => [[]]
  | c :: cs =>
    match splitComma cs with
    | [] => [[c]]
    | g :: gs => if c = ',' then [] :: g :: gs else (c :: g) :: gs

/-- The list `[t.strip() for t in group.split(',')]` (optimizer.py:92). -/
def tablesOf (g : List Char) : List (List Char) := (splitComma g).map stripL

/-- Python `s.endswith(';')`. -/
def endsWithSemi (l : List Char) : Bool :=
  match l.getLast? with
  | some c => c == ';'
  | none => false

/-- Python `s.rstrip(';')`: remove every trailing semicolon (and nothing else). -/
def rstripSemis (l : List Char) : List Char :=
  (l.reverse.dropWhile (· == ';')).reverse

/-! ### Finding comments, explanations and the banner (string constants of
optimizer.py) -/

def sStar : String := "-- SELECT *: Fetches all columns — inefficient."
def eStar : String := "SELECT * replaced with explicit columns for better performance and clarity."
def sJoin : String := "-- Implicit JOIN: Using comma-separated tables instead of JOIN syntax — harder to read/optimize."
def eJoin : String := "Implicit joins replaced with explicit JOIN syntax for readability and optimization."
def sIn : String := "-- Subquery in IN clause: Can be slow; better as a JOIN or EXISTS."
def eIn : String := "Subquery in IN replaced with CTE and JOIN for better performance."
def advisoryLine : String := "-- Consider using a CTE for the subquery in IN clause."
def sLim : String := "-- No pagination (e.g., LIMIT) if this returns many rows."
def eLim : String := "Added LIMIT 100 to prevent heavy queries on large datasets."
def sDedup : String := "-- No deduplication in subquery: Use DISTINCT in subquery to avoid duplicates."
def eDedup : String := "Added DISTINCT in subquery for deduplication."
def bannerLine : String := "-- What Was Optimized and Why:"

/-- Whether a string contains the explanation banner. -/
def hasBannerB (s : String) : Bool := containsL bannerLine.data s.data

/-! ### Output assembly shared by both rewriters
(optimizer.py:56-59 and 115-118 are textually identical). -/

/-- Embeds `if suggestions: sql = '\n'.join(suggestions) + '\n' + sql`. -/
def addComments (sugg : List String) (body : String) : String :=
  if sugg.isEmpty then body else String.intercalate "\n" sugg ++ "\n" ++ body

/-- Embeds the explanation-append of optimizer.py:117-118 (banner plus joined explanation lines). -/
def addExplanations (expl : List String) (s : String) : String :=
  if expl.isEmpty then s
  else s ++ "\n-- What Was Optimized and Why:\n-- " ++ String.intercalate "\n-- " expl

/-! ### The fallback text rewriter (optimizer.py:72-119)

The five detection/rewrite steps run in source order; every search runs on
the original `query`, every substitution on the evolving `optimized_query`,
exactly as in the source.  The `tokens` list of optimizer.py:77 is computed
by the source but never used, so it has no counterpart here. -/

/-- Step A1 detector: `SELECT *` (optimizer.py:82). -/
def fb1 (q : String) : Bool := searchSelectStar q.data

/-- The `optimized_query` after step A1 (optimizer.py:86). -/
def fbOq1 (q : String) : List Char :=
  if fb1 q then subStarAll q.data else q.data

/-- Step A2 detector: implicit join, i.e. the FROM-clause group of the
original query contains a comma (optimizer.py:89). -/
def fb2 (q : String) : Bool :=
  match searchFrom q.data with
  | some g => g.contains ','
  | none => false

/-- The replacement text `f"FROM {tables[0]} JOIN {tables[1]} ON <join_condition>"`. -/
def mkJoinRep (a b : List Char) : List Char :=
  "FROM ".data ++ a ++ " JOIN ".data ++ b ++ " ON <join_condition>".data

/-- The `optimized_query` after step A2 (optimizer.py:88-94): the substitution is
applied only when the comma-split of group 1 has exactly two entries. -/
def fbOq2 (q : String) : List Char :=
  match searchFrom q.data with
  | some g =>
    if g.contains ',' then
      match tablesOf g with
      | [a, b] => subFromAll (mkJoinRep a b) (fbOq1 q)
      | _ => fbOq1 q
    else fbOq1 q
  | none => fbOq1 q

/-- Step A3 detector: subquery in IN clause (optimizer.py:96). -/
def fb3 (q : String) : Bool := searchInSelect q.data

/-- The `optimized_query` after step A3 (optimizer.py:100). -/
def fbOq3 (q : String) : List Char :=
  if fb3 q then (advisoryLine ++ "\n").data ++ fbOq2 q else fbOq2 q

/-- Step A4 detector: missing LIMIT in the original query (optimizer.py:102). -/
def fb4 (q : String) : Bool := !searchLimit q.data

/-- The `optimized_query` after step A4 (optimizer.py:105-108). -/
def fbOq4 (q : String) : List Char :=
  if fb4 q then
    if !endsWithSemi (stripL (fbOq3 q)) then fbOq3 q ++ "\nLIMIT 100;".data
    else rstripSemis (fbOq3 q) ++ "\nLIMIT 100;".data
  else fbOq3 q

/-- Step A5 detector: IN-subquery without DISTINCT (optimizer.py:110-111). -/
def fb5 (q : String) : Bool :=
  match searchInSelFrom q.data with
  | some g => !containsCIL "distinct".data g
  | none => false

/-- The `optimized_query` after step A5 (optimizer.py:114). -/
def fbOq5 (q : String) : List Char :=
  if fb5 q then subInSelectAll (fbOq4 q) else fbOq4 q

/-- The suggestion (comment) lines accumulated by the fallback, in detection
order (optimizer.py:84,90,98,103,112). -/
def fallbackSugg (q : String) : List String :=
  (if fb1 q then [sStar] else []) ++ (if fb2 q then [sJoin] else []) ++
  (if fb3 q then [sIn] else []) ++ (if fb4 q then [sLim] else []) ++
  (if fb5 q then [sDedup] else [])

/-- The explanation lines accumulated by the fallback, in detection order
(optimizer.py:85,91,99,104,113). -/
def fallbackExpl (q : String) : List String :=
  (if fb1 q then [eStar] else []) ++ (if fb2 q then [eJoin] else []) ++
  (if fb3 q then [eIn] else []) ++ (if fb4 q then [eLim] else []) ++
  (if fb5 q then [eDedup] else [])

/-- The string returned by the fallback path when parsing succeeds
(optimizer.py:115-119). -/
def fallbackOut (q : String) : String :=
  addExplanations (fallbackExpl q) (addComments (fallbackSugg q) (String.mk (fbOq5 q)))

/-- Modelled from the spec: the external lexical parser capability (sqlparse;
spec §6 "a flat token stream").  `sqlparse.parse` yields at least one
statement exactly on non-empty input, which is what optimizer.py:73-75 tests
before raising. -/
def sqlparseHasStatements (q : String) : Bool := !(q == "")

/-- The fallback path of `optimize_sql` (optimizer.py:72-119): parse with
sqlparse, raise `ValueError` when no statement results, otherwise run the
five regex-based steps and assemble the output. -/
def rewriteFallback (q : String) : Except String String :=
  if sqlparseHasStatements q then Except.ok (fallbackOut q)
  else Except.error "Could not parse SQL query."

/-! ### The expression tree of the structural rewriter

A tagged-variant expression tree with the node kinds the structural rewriter
inspects (spec §3, §9: Select, From, Join, Subquery, Limit, Star, Column,
Table; the From clause is embedded as the select node's optional expression
list, the Limit clause as its optional bound).  `condition` stands for
sqlglot's `exp.condition(...)` textual conditions. -/

mutual

inductive SqlExpr where
  | star : SqlExpr
  | column (name : String) : SqlExpr
  | table (name : String) : SqlExpr
  | condition (raw : String) : SqlExpr
  | sub (inner : SqlExpr) : SqlExpr
  | inPred (lhs : SqlExpr) (query : SqlOpt) : SqlExpr
  | join (this : SqlExpr) (onCond : SqlExpr) (kind : String) : SqlExpr
  | select (exprs : SqlList) (fromL : SqlListOpt)
      (whereC : SqlOpt) (limit : Option Nat) : SqlExpr

/-- An optional child expression (sqlglot's `args.get(...)`), as a companion
inductive so that all recursions stay structural. -/
inductive SqlOpt where
  | none : SqlOpt
  | some (e : SqlExpr) : SqlOpt

/-- A child expression list, as a companion inductive. -/
inductive SqlList where
  | nil : SqlList
  | cons (head : SqlExpr) (tail : SqlList) : SqlList

/-- An optional child expression list. -/
inductive SqlListOpt where
  | none : SqlListOpt
  | some (l : SqlList) : SqlListOpt

end

/-- View a `SqlList` as an ordinary list. -/
def SqlList.toList : SqlList → List SqlExpr
  | .nil => []
  | .cons e es => e :: es.toList

/-- Build a `SqlList` from an ordinary list. -/
def SqlList.ofList : List SqlExpr → SqlList
  | [] => .nil
  | e :: es => .cons e (SqlList.ofList es)

namespace SqlExpr

/-- Embeds `tree.args.get("from")` for a top-level statement (optimizer.py:31):
present only on select nodes. -/
def getFrom : SqlExpr → Option (List SqlExpr)
  | .select _ (.some f) _ _ => some f.toList
  | _ => none

/-- Embeds `from_.set("expressions", l)` on the top-level statement (optimizer.py:39). -/
def setFrom (t : SqlExpr) (l : List SqlExpr) : SqlExpr :=
  match t with
  | .select es _ w lim => .select es (.some (SqlList.ofList l)) w lim
  | other => other

/-- Embeds `tree.args.get("limit")` for the top-level statement (optimizer.py:51). -/
def getLimit : SqlExpr → Option Nat
  | .select _ _ _ l => l
  | _ => none

def isTable : SqlExpr → Bool
  | .table _ => true
  | _ => false

end SqlExpr

/-! ### Tree traversals (mutual structural recursions over the tree) -/

mutual

/-- Embeds `select.find(exp.Star)` (optimizer.py:24): does the subtree contain a
star node? -/
def containsStar : SqlExpr → Bool
  | .star => true
  | .column _ => false
  | .table _ => false
  | .condition _ => false
  | .sub i => containsStar i
  | .inPred l q => containsStar l || containsStarO q
  | .join t o _ => containsStar t || containsStar o
  | .select es f w _ => containsStarL es || containsStarLO f || containsStarO w

def containsStarO : SqlOpt → Bool
  | .none => false
  | .some e => containsStar e

def containsStarL : SqlList → Bool
  | .nil => false
  | .cons e es => containsStar e || containsStarL es

def containsStarLO : SqlListOpt → Bool
  | .none => false
  | .some l => containsStarL l

end

/-- Embeds `tree.find(exp.Select)` (optimizer.py:22): first select node of the
traversal (the node itself when the tree is a select statement).  Traversal
never descends into a select node, so no list companion is needed. -/
def findSelect : SqlExpr → Option SqlExpr
  | .select es f w l => some (.select es f w l)
  | .star | .column _ | .table _ | .condition _ => none
  | .sub i => findSelect i
  | .inPred l (.some e) => (findSelect l).orElse fun _ => findSelect e
  | .inPred l .none => findSelect l
  | .join t o _ => (findSelect t).orElse fun _ => findSelect o

/-- Embeds `select.expressions = [...]` on the select node returned by
`tree.find(exp.Select)` (optimizer.py:29): replace the projection list of the
first select of the traversal. -/
def replaceSelExprs (es' : SqlList) : SqlExpr → SqlExpr
  | .select _ f w l => .select es' f w l
  | .star => .star
  | .column n => .column n
  | .table n => .table n
  | .condition r => .condition r
  | .sub i => .sub (replaceSelExprs es' i)
  | .inPred l (.some e) =>
    if (findSelect l).isSome then .inPred (replaceSelExprs es' l) (.some e)
    else .inPred l (.some (replaceSelExprs es' e))
  | .inPred l .none => .inPred (replaceSelExprs es' l) .none
  | .join t o k =>
    if (findSelect t).isSome then .join (replaceSelExprs es' t) o k
    else .join t (replaceSelExprs es' o) k

mutual

/-- Embeds `tree.find(exp.In)` (optimizer.py:41): first In node of the traversal. -/
def findIn : SqlExpr → Option SqlExpr
  | .inPred l q => some (.inPred l q)
  | .star => none
  | .column _ => none
  | .table _ => none
  | .condition _ => none
  | .sub i => findIn i
  | .join t o _ => (findIn t).orElse fun _ => findIn o
  | .select es f w _ =>
    (findInL es).orElse fun _ => (findInLO f).orElse fun _ => findInO w

def findInO : SqlOpt → Option SqlExpr
  | .none => none
  | .some e => findIn e

def findInL : SqlList → Option SqlExpr
  | .nil => none
  | .cons e es => (findIn e).orElse fun _ => findInL es

def findInLO : SqlListOpt → Option SqlExpr
  | .none => none
  | .some l => findInL l

end

/-! ### Serialization

Modelled from the spec: the external serializer capability (`tree.sql(...)`,
spec §4.1 "serialize the (possibly mutated) tree back to formatted text").
Keywords are upper-case, projection lists are comma-separated (the spec's
expected outputs quote contiguous `col1, col2`), and a join placed in the
from-list (as built by optimizer.py:38-39) renders as an explicit
`INNER JOIN ... ON ...` (spec §4.1 step 2). -/

mutual

def serializeE : SqlExpr → String
  | .star => "*"
  | .column n => n
  | .table n => n
  | .condition r => r
  | .sub i => serializeE i
  | .inPred l q => serializeE l ++ " IN (" ++ serializeO q ++ ")"
  | .join t o k => k ++ " JOIN " ++ serializeE t ++ " ON " ++ serializeE o
  | .select es f w l =>
    "SELECT " ++ serializeList es ++ serializeFromPart f ++ serializeWherePart w ++
      (match l with | some n => " LIMIT " ++ toString n | none => "")

def serializeO : SqlOpt → String
  | .none => ""
  | .some e => serializeE e

/-- Comma-separated serialization of a projection list. -/
def serializeList : SqlList → String
  | .nil => ""
  | .cons e .nil => serializeE e
  | .cons e es => serializeE e ++ ", " ++ serializeList es

/-- Serialization of a from-list: comma-separated, except that a join node is
attached with a space (`a INNER JOIN b ON c`). -/
def serializeFromL : SqlList → String
  | .nil => ""
  | .cons e .nil => serializeE e
  | .cons e (.cons (.join t o k) rest) =>
    serializeE e ++ " " ++ k ++ " JOIN " ++ serializeE t ++ " ON " ++ serializeE o ++
      (match rest with | .nil => "" | _ => ", " ++ serializeFromL rest)
  | .cons e es => serializeE e ++ ", " ++ serializeFromL es

def serializeFromPart : SqlListOpt → String
  | .none => ""
  | .some ts => " FROM " ++ serializeFromL ts

def serializeWherePart : SqlOpt → String
  | .none => ""
  | .some c => " WHERE " ++ serializeE c

end

/-! ### The structural rewriter (optimizer.py:8-63)

The four detection/rewrite steps of `optimize_sql_with_sqlglot`, applied in
source order to the evolving tree.  `exp.column`, the projection-list
assignment, `exp.condition` and `from_.set` are modelled from the spec as
total, successful tree edits (spec §4.1: "the projection list is replaced
wholesale", "restructure the from-clause into an explicit inner join ...
with a placeholder join condition"). -/

/-- Step 1 detector (optimizer.py:22-25): a select node exists and contains
a star anywhere in its subtree. -/
def stStar (t : SqlExpr) : Bool :=
  match findSelect t with
  | some s => containsStar s
  | none => false

/-- The tree after step 1 (optimizer.py:29): the found select's projection
list becomes `[col1, col2]`. -/
def stTree1 (t : SqlExpr) : SqlExpr :=
  if stStar t then
    replaceSelExprs (.cons (.column "col1") (.cons (.column "col2") .nil)) t
  else t

/-- Step 2 detector (optimizer.py:31-34): the top-level from-clause holds
exactly two expressions, both plain tables. -/
def stJoin (t : SqlExpr) : Bool :=
  match SqlExpr.getFrom (stTree1 t) with
  | some [a, b] => a.isTable && b.isTable
  | _ => false

/-- The tree after step 2 (optimizer.py:38-39): the from-clause becomes
`[tables[0], Join(this=tables[1], on=<join_condition>, join_type=INNER)]`. -/
def stTree2 (t : SqlExpr) : SqlExpr :=
  match SqlExpr.getFrom (stTree1 t) with
  | some [a, b] =>
    if a.isTable && b.isTable then
      (stTree1 t).setFrom [a, .join b (.condition "<join_condition>") "INNER"]
    else stTree1 t
  | _ => stTree1 t

/-- Step 3 detector (optimizer.py:41-42): the tree contains an In node whose
`query` argument is a subquery. -/
def stIn (t : SqlExpr) : Bool :=
  match findIn (stTree2 t) with
  | some (.inPred _ (.some (.sub _))) => true
  | _ => false

/-- Step 4 detector (optimizer.py:51): the top-level statement has no limit. -/
def stLim (t : SqlExpr) : Bool := (SqlExpr.getLimit (stTree2 t)).isNone

/-- The serialized body, with the advisory CTE comment prepended when step 3
fired (optimizer.py:46-49). -/
def stBody (t : SqlExpr) : String :=
  if stIn t then advisoryLine ++ "\n" ++ serializeE (stTree2 t)
  else serializeE (stTree2 t)

/-- The body after the LIMIT append of step 4 (optimizer.py:54). -/
def stBody2 (t : SqlExpr) : String :=
  if stLim t then stBody t ++ "\nLIMIT 100;" else stBody t

/-- The suggestion (comment) lines of the structural rewriter, in detection
order (optimizer.py:26,35,43,52). -/
def structSugg (t : SqlExpr) : List String :=
  (if stStar t then [sStar] else []) ++ (if stJoin t then [sJoin] else []) ++
  (if stIn t then [sIn] else []) ++ (if stLim t then [sLim] else [])

/-- The explanation lines of the structural rewriter, in detection order
(optimizer.py:27,36,44,53). -/
def structExpl (t : SqlExpr) : List String :=
  (if stStar t then [eStar] else []) ++ (if stJoin t then [eJoin] else []) ++
  (if stIn t then [eIn] else []) ++ (if stLim t then [eLim] else [])

/-- The string returned by the structural rewriter for a parsed tree
(optimizer.py:55-60). -/
def structuralCore (t : SqlExpr) : String :=
  addExplanations (structExpl t) (addComments (structSugg t) (stBody2 t))

/-! ### Tokenizer and parser

Modelled from the spec: the external SQL parser capability (`parse_one`,
spec §6 "a structured, mutably-editable expression tree with node kinds for
select/from/join/subquery/limit/star/column/table").  The grammar fragment
covers the statement shapes of the spec's testable properties:
`SELECT <projection> FROM <tables> [WHERE <id> IN (<select>)] [LIMIT n]`.
Anything else fails to parse, which in `optimize_sql_with_sqlglot` produces
the `None` fallback signal exactly as a sqlglot `ParseError` does. -/

inductive Tok where
  | word (s : String) : Tok
  | star : Tok
  | comma : Tok
  | lparen : Tok
  | rparen : Tok

/-- Lower-casing for keyword comparison. -/
def lowerS (s : String) : String := String.mk (s.data.map Char.toLower)

/-- Fuel-based tokenizer: words (`\w+`), `*`, `,`, `(`, `)` and whitespace;
any other character fails the parse.  `l.length + 1` fuel always suffices. -/
def tokenizeGo : Nat → List Char → Option (List Tok)
  | 0, _ => none
  | _ + 1, [] => some []
  | fuel + 1, c :: cs =>
    if isSpaceC c then tokenizeGo fuel cs
    else if c = '*' then (tokenizeGo fuel cs).map (Tok.star :: ·)
    else if c = ',' then (tokenizeGo fuel cs).map (Tok.comma :: ·)
    else if c = '(' then (tokenizeGo fuel cs).map (Tok.lparen :: ·)
    else if c = ')' then (tokenizeGo fuel cs).map (Tok.rparen :: ·)
    else if isWordC c then
      (tokenizeGo fuel (cs.dropWhile isWordC)).map
        (Tok.word (String.mk (c :: cs.takeWhile isWordC)) :: ·)
    else none

def tokenize (l : List Char) : Option (List Tok) := tokenizeGo (l.length + 1) l

/-- A projection item: `*` or a column name. -/
def parseProjItem : Tok → Option SqlExpr
  | .star => some .star
  | .word w => some (.column w)
  | _ => none

/-- Comma-separated projection list. -/
def parseProj : Nat → List Tok → Option (List SqlExpr × List Tok)
  | 0, _ => none
  | _ + 1, [] => none
  | fuel + 1, t :: rest =>
    match parseProjItem t with
    | some e =>
      match rest with
      | .comma :: rest2 => (parseProj fuel rest2).map (fun p => (e :: p.1, p.2))
      | _ => some ([e], rest)
    | none => none

/-- Comma-separated table list of a from-clause. -/
def parseTables : Nat → List Tok → Option (List SqlExpr × List Tok)
  | 0, _ => none
  | _ + 1, [] => none
  | fuel + 1, t :: rest =>
    match t with
    | .word w =>
      match rest with
      | .comma :: rest2 => (parseTables fuel rest2).map (fun p => (SqlExpr.table w :: p.1, p.2))
      | _ => some ([SqlExpr.table w], rest)
    | _ => none

/-- Decimal reading of a token (structural replacement for `String.toNat?`,
which core compiles by well-founded recursion). -/
def strToNat (s : String) : Option Nat :=
  if s.data ≠ [] && s.data.all isDigitC then
    some (s.data.foldl (fun n c => n * 10 + (c.toNat - 48)) 0)
  else none

/-- Optional `LIMIT n` clause. -/
def parseLimitOpt (toks : List Tok) : Option (Option Nat × List Tok) :=
  match toks with
  | .word w :: rest =>
    if lowerS w = "limit" then
      match rest with
      | .word n :: rest2 =>
        match strToNat n with
        | some k => some (some k, rest2)
        | none => none
      | _ => none
    else some (none, toks)
  | _ => some (none, toks)

/-- Recursive-descent parse of one select statement, returning its
components and the remaining tokens.  The only supported where-clause shape
is `WHERE <id> IN (<select>)`, matching the spec's testable properties. -/
def parseSelectParts :
    Nat → List Tok → Option ((SqlList × SqlListOpt × SqlOpt × Option Nat) × List Tok)
  | 0, _ => none
  | fuel + 1, .word w :: rest =>
    if lowerS w = "select" then
      match parseProj (rest.length + 1) rest with
      | some (es, .word fw :: r2) =>
        if lowerS fw = "from" then
          match parseTables (r2.length + 1) r2 with
          | some (ts, r3) =>
            match r3 with
            | .word w2 :: .word ident :: .word inw :: .lparen :: r4 =>
              if lowerS w2 = "where" && lowerS inw = "in" then
                match parseSelectParts fuel r4 with
                | some ((es2, f2, wc2, l2), .rparen :: r5) =>
                  match parseLimitOpt r5 with
                  | some (lim, r6) =>
                    some ((SqlList.ofList es, .some (SqlList.ofList ts),
                      .some (.inPred (.column ident)
                        (.some (.sub (.select es2 f2 wc2 l2)))), lim), r6)
                  | none => none
                | _ => none
              else
                match parseLimitOpt r3 with
                | some (lim, r4') => some ((SqlList.ofList es, .some (SqlList.ofList ts), .none, lim), r4')
                | none => none
            | _ =>
              match parseLimitOpt r3 with
              | some (lim, r4') => some ((SqlList.ofList es, .some (SqlList.ofList ts), .none, lim), r4')
              | none => none
          | none => none
        else none
      | _ => none
    else none
  | _ + 1, _ => none

/-- Modelled from the spec: `sqlglot.parse_one` (optimizer.py:18), the
external parser capability.  Returns a select-rooted tree on success, `none`
where sqlglot would raise a `ParseError`.  The fragment is narrower than a
full SQL grammar (it rejects, e.g., line comments and string literals that
sqlglot accepts), so any claim settled through the parse-failure route uses
an input on which the real parser fails as well (such as dangling
parentheses). -/
def parse_one (q : String) : Option SqlExpr :=
  match tokenize q.data with
  | none => none
  | some toks =>
    match parseSelectParts (toks.length + 1) toks with
    | some ((es, f, w, l), []) => some (.select es f w l)
    | _ => none

/-! ### The two entry points (optimizer.py:8-63 and 65-119) -/

/-- Embeds `optimize_sql_with_sqlglot` (optimizer.py:8-63): parse, run the four
steps, assemble; the surrounding `try/except` turns any parse failure into
`None`. -/
def optimize_sql_with_sqlglot (q : String) : Option String :=
  match parse_one q with
  | some t => some (structuralCore t)
  | none => none

/-- Embeds `optimize_sql` (optimizer.py:65-119): return the structural result when
it is truthy (non-`None` and non-empty, Python truthiness of
optimizer.py:70), otherwise run the fallback path. -/
def optimize_sql (q : String) : Except String String :=
  match optimize_sql_with_sqlglot q with
  | some s => if s == "" then rewriteFallback q else Except.ok s
  | none => rewriteFallback q

/-- Does an `Except`-result hold `ok` output containing `pat`? -/
def okContains (r : Except String String) (pat : String) : Bool :=
  match r with
  | .ok s => containsStr s pat
  | .error _ => false

/-- Modelled from the spec (§4.2, refinement comparison for the fallback's
implicit-join detector): the clause keywords that, per the spec's words,
bound the matched table list ("up to the next clause keyword"). -/
def clauseKeywords : List (List Char) :=
  ["where".data, "group".data, "order".data, "having".data,
   "limit".data, "join".data, "on".data, "union".data]

def startsWithKeyword (l : List Char) : Bool :=
  clauseKeywords.any fun kw => (matchCI kw l).isSome

/-- Characters up to the first position where a clause keyword starts. -/
def takeUntilKeyword : List Char → List Char
  | [] => []
  | c :: cs => if startsWithKeyword (c :: cs) then [] else c :: takeUntilKeyword cs

/-- Modelled from the spec: the from-clause table list "matched by a simple
word/comma pattern up to the next clause keyword" (spec §4.2 step 2) — the
text following the first `FROM` and its whitespace, cut at the next clause
keyword.  This is the spec's description of the fallback detector, defined
here only to compare it against the implemented `searchFrom`. -/
def specFromListGo : List Char → Option (List Char)
  | [] => none
  | c :: cs =>
    match matchCI "from".data (c :: cs) with
    | some r =>
      let w := runLen isSpaceC r
      if 0 < w then some (takeUntilKeyword (r.drop w)) else specFromListGo cs
    | none => specFromListGo cs

def specFromList (q : String) : Option (List Char) := specFromListGo q.data

/-! ## Basic string and list lemmas -/

theorem strData_append (s t : String) : (s ++ t).data = s.data ++ t.data := rfl

theorem strMk_data (s : String) : String.mk s.data = s := rfl

theorem strLength_append (s t : String) : (s ++ t).length = s.length + t.length := by
  show (s ++ t).data.length = s.data.length + t.data.length
  rw [strData_append, List.length_append]

theorem str_ne_empty_of_length_pos {s : String} (h : 0 < s.length) : s ≠ "" := by
  intro he
  subst he
  exact absurd h (by decide)

theorem mem_ite_singleton {α : Type} {x y : α} {b : Bool} :
    x ∈ (if b then [y] else []) ↔ b = true ∧ x = y := by
  cases b <;> simp

theorem containsL_nil_pat : ∀ l, containsL [] l = true
  | [] => rfl
  | _ :: _ => by simp [containsL, isPrefixL]

theorem isPrefixL_self_append (p r : List Char) : isPrefixL p (p ++ r) = true := by
  induction p with
  | nil => rfl
  | cons c cs ih => simp [isPrefixL, ih]

theorem containsL_head (p r : List Char) : containsL p (p ++ r) = true := by
  cases p with
  | nil => exact containsL_nil_pat _
  | cons c cs =>
    have h := isPrefixL_self_append (c :: cs) r
    rw [List.cons_append] at h
    simp [containsL, h]

theorem containsL_cons_of (p : List Char) (c : Char) {l : List Char}
    (h : containsL p l = true) : containsL p (c :: l) = true := by
  simp [containsL, h]

theorem containsL_append_of (x : List Char) {p l : List Char}
    (h : containsL p l = true) : containsL p (x ++ l) = true := by
  induction x with
  | nil => exact h
  | cons c cs ih => simpa using containsL_cons_of p c ih

theorem containsL_of_eq (x r : List Char) {p l : List Char}
    (he : l = x ++ (p ++ r)) : containsL p l = true := by
  subst he
  exact containsL_append_of x (containsL_head p r)

/-! ## Collapse lemmas: when a detector does not fire, the corresponding
rewrite step leaves the query untouched -/

theorem fb_flags_of_sugg_nil {q : String} (h : fallbackSugg q = []) :
    fb1 q = false ∧ fb2 q = false ∧ fb3 q = false ∧ fb4 q = false ∧ fb5 q = false := by
  unfold fallbackSugg at h
  cases h1 : fb1 q <;> cases h2 : fb2 q <;> cases h3 : fb3 q <;> cases h4 : fb4 q <;>
    cases h5 : fb5 q <;>
    first
      | exact ⟨rfl, rfl, rfl, rfl, rfl⟩
      | simp [h1, h2, h3, h4, h5] at h

theorem fallbackExpl_nil_of_flags {q : String} (h1 : fb1 q = false) (h2 : fb2 q = false)
    (h3 : fb3 q = false) (h4 : fb4 q = false) (h5 : fb5 q = false) :
    fallbackExpl q = [] := by
  simp [fallbackExpl, h1, h2, h3, h4, h5]

theorem fbOq5_of_flags {q : String} (h1 : fb1 q = false) (h2 : fb2 q = false)
    (h3 : fb3 q = false) (h4 : fb4 q = false) (h5 : fb5 q = false) :
    fbOq5 q = q.data := by
  have o1 : fbOq1 q = q.data := by simp [fbOq1, h1]
  have o2 : fbOq2 q = q.data := by
    unfold fbOq2
    cases hs : searchFrom q.data with
    | none => simpa [hs] using o1
    | some g =>
      have hc : g.contains ',' = false := by
        unfold fb2 at h2
        rwa [hs] at h2
      have hc2 : ¬ (',' ∈ g) := by simpa using hc
      simpa [hs, hc, hc2] using o1
  have o3 : fbOq3 q = q.data := by simp [fbOq3, h3, o2]
  have o4 : fbOq4 q = q.data := by simp [fbOq4, h4, o3]
  simp [fbOq5, h5, o4]

theorem fallbackOut_of_sugg_nil {q : String} (h : fallbackSugg q = []) :
    fallbackOut q = q := by
  obtain ⟨h1, h2, h3, h4, h5⟩ := fb_flags_of_sugg_nil h
  unfold fallbackOut
  rw [h, fallbackExpl_nil_of_flags h1 h2 h3 h4 h5, fbOq5_of_flags h1 h2 h3 h4 h5]
  simp [addComments, addExplanations, strMk_data]

theorem addExplanations_length_ge (expl : List String) (s : String) :
    s.length ≤ (addExplanations expl s).length := by
  unfold addExplanations
  split
  · exact Nat.le_refl _
  · rw [strLength_append, strLength_append]
    omega

theorem addComments_length_pos {sugg : List String} (body : String) (h : sugg ≠ []) :
    0 < (addComments sugg body).length := by
  unfold addComments
  split
  · next he => exact absurd (List.isEmpty_iff.mp he) h
  · rw [strLength_append, strLength_append]
    have : ("\n" : String).length = 1 := by decide
    omega

theorem fallbackOut_ne_empty {q : String} (hq : q ≠ "") : fallbackOut q ≠ "" := by
  cases hs : fallbackSugg q with
  | nil => rw [fallbackOut_of_sugg_nil hs]; exact hq
  | cons a as =>
    apply str_ne_empty_of_length_pos
    unfold fallbackOut
    calc 0 < (addComments (fallbackSugg q) (String.mk (fbOq5 q))).length := by
              apply addComments_length_pos
              rw [hs]
              exact fun hcon => List.noConfusion hcon
      _ ≤ _ := addExplanations_length_ge _ _

theorem rewriteFallback_ok {q : String} (hq : q ≠ "") :
    rewriteFallback q = Except.ok (fallbackOut q) := by
  unfold rewriteFallback sqlparseHasStatements
  have : (q == "") = false := beq_eq_false_iff_ne.mpr hq
  simp [this]

/-! ## Structural-path shape lemmas -/

theorem parse_root {q : String} {t : SqlExpr} (h : parse_one q = some t) :
    ∃ es f w l, t = .select es f w l := by
  unfold parse_one at h
  split at h
  · exact absurd h (by simp)
  · split at h
    · cases h
      exact ⟨_, _, _, _, rfl⟩
    · exact absurd h (by simp)

theorem stTree1_shape (es : SqlList) (f : SqlListOpt) (w : SqlOpt) (l : Option Nat) :
    ∃ es2, stTree1 (.select es f w l) = .select es2 f w l := by
  unfold stTree1
  split
  · exact ⟨_, rfl⟩
  · exact ⟨es, rfl⟩

theorem stTree2_shape (es : SqlList) (f : SqlListOpt) (w : SqlOpt) (l : Option Nat) :
    ∃ es2 f2, stTree2 (.select es f w l) = .select es2 f2 w l := by
  obtain ⟨es2, h1⟩ := stTree1_shape es f w l
  unfold stTree2
  rw [h1]
  split
  all_goals try exact ⟨es2, f, rfl⟩
  split
  · exact ⟨es2, _, rfl⟩
  · exact ⟨es2, f, rfl⟩

theorem serializeE_select (es : SqlList) (f : SqlListOpt) (w : SqlOpt) (l : Option Nat) :
    serializeE (.select es f w l) =
      "SELECT " ++ serializeList es ++ serializeFromPart f ++ serializeWherePart w ++
        (match l with | some n => " LIMIT " ++ toString n | none => "") := rfl

theorem structuralCore_ne_empty {q : String} {t : SqlExpr} (h : parse_one q = some t) :
    structuralCore t ≠ "" := by
  obtain ⟨es, f, w, l, ht⟩ := parse_root h
  subst ht
  obtain ⟨es2, f2, h2⟩ := stTree2_shape es f w l
  apply str_ne_empty_of_length_pos
  have hser : 0 < (serializeE (stTree2 (.select es f w l))).length := by
    rw [h2, serializeE_select, strLength_append, strLength_append, strLength_append,
      strLength_append]
    have : ("SELECT " : String).length = 7 := by decide
    omega
  have hbody : (serializeE (stTree2 (.select es f w l))).length ≤
      (stBody (.select es f w l)).length := by
    unfold stBody
    split
    · rw [strLength_append, strLength_append]; omega
    · exact Nat.le_refl _
  have hbody2 : (stBody (.select es f w l)).length ≤ (stBody2 (.select es f w l)).length := by
    unfold stBody2
    split
    · rw [strLength_append]; omega
    · exact Nat.le_refl _
  have hcom : (stBody2 (.select es f w l)).length ≤
      (addComments (structSugg (.select es f w l)) (stBody2 (.select es f w l))).length := by
    unfold addComments
    split
    · exact Nat.le_refl _
    · rw [strLength_append, strLength_append]; omega
  unfold structuralCore
  have := addExplanations_length_ge (structExpl (.select es f w l))
    (addComments (structSugg (.select es f w l)) (stBody2 (.select es f w l)))
  omega

theorem structural_some_ne_empty {q : String} {s : String}
    (h : optimize_sql_with_sqlglot q = some s) : s ≠ "" := by
  unfold optimize_sql_with_sqlglot at h
  split at h
  · next t hp =>
    cases h
    exact structuralCore_ne_empty hp
  · exact absurd h (by simp)

theorem optimize_sql_of_some {q s : String} (h : optimize_sql_with_sqlglot q = some s) :
    optimize_sql q = Except.ok s := by
  have hne := structural_some_ne_empty h
  unfold optimize_sql
  rw [h]
  show (if s == "" then rewriteFallback q else Except.ok s) = Except.ok s
  simp [hne]

theorem optimize_sql_of_none {q : String} (h : optimize_sql_with_sqlglot q = none) :
    optimize_sql q = rewriteFallback q := by
  unfold optimize_sql
  rw [h]

/-! ## Claims -/

/-- C1 (counterexample): two failures of the claim as stated.  First, the
fallback does not always succeed: on the empty input string the lexical
parser yields no statements, so the fallback raises
`ValueError("Could not parse SQL query.")` (optimizer.py:73-75); the empty
string also reaches the fallback through `optimize_sql` (the structural
parser fails on it), so the error even escapes `optimize_sql`.  Second, the
worst case is not "the trimmed original query": on the padded zero-finding
input `" )( LIMIT 5 "` — which the structural parser also rejects (the
dangling parentheses are a parse error), so the real dispatcher routes it to
the fallback — the fallback returns the query verbatim with its surrounding
whitespace, not its trim `")( LIMIT 5"`. -/
theorem c1_counterexample :
    (rewriteFallback "" = Except.error "Could not parse SQL query." ∧
      optimize_sql "" = Except.error "Could not parse SQL query.") ∧
    (fallbackSugg " )( LIMIT 5 " = [] ∧
      rewriteFallback " )( LIMIT 5 " = Except.ok " )( LIMIT 5 " ∧
      optimize_sql " )( LIMIT 5 " = Except.ok " )( LIMIT 5 " ∧
      String.mk (stripL " )( LIMIT 5 ".data) = ")( LIMIT 5" ∧
      (" )( LIMIT 5 " : String) ≠ ")( LIMIT 5") := by
  exact ⟨⟨rfl, rfl⟩, rfl, rfl, rfl, rfl, by decide⟩

/-- C1 (amended): for every input on which the lexical parser yields at least
one statement — that is, every non-empty input string — the fallback rewriter
succeeds without raising, and when it detects no finding it returns the
original query unchanged (not trimmed) with no annotations. -/
theorem c1_fallback_total (q : String) (hq : q ≠ "") :
    ∃ s, rewriteFallback q = Except.ok s ∧ (fallbackSugg q = [] → s = q) :=
  ⟨fallbackOut q, rewriteFallback_ok hq, fun h => fallbackOut_of_sugg_nil h⟩

/-- Witness for C1 at the concrete non-empty input `"LIMIT 5"` (an input with
zero findings). -/
theorem c1_fallback_total_witness :
    ("LIMIT 5" : String) ≠ "" ∧
    ∃ s, rewriteFallback "LIMIT 5" = Except.ok s ∧
      (fallbackSugg "LIMIT 5" = [] → s = "LIMIT 5") :=
  ⟨by decide, c1_fallback_total "LIMIT 5" (by decide)⟩

/-- C2: `optimize_sql` consults the structural rewriter first; when it
returns null the dispatcher returns the fallback's result, and when it
returns a (necessarily non-empty) string the dispatcher returns that string
directly (optimizer.py:69-71). -/
theorem c2_dispatcher (q : String) :
    (optimize_sql_with_sqlglot q = none → optimize_sql q = rewriteFallback q) ∧
    (∀ s, optimize_sql_with_sqlglot q = some s → optimize_sql q = Except.ok s) :=
  ⟨fun h => optimize_sql_of_none h, fun _ h => optimize_sql_of_some h⟩

/-- Witness for C2: a concrete input on each side of the dispatch. -/
theorem c2_dispatcher_witness :
    optimize_sql "abc def" = rewriteFallback "abc def" ∧
    optimize_sql "SELECT id FROM t LIMIT 10" = Except.ok "SELECT id FROM t LIMIT 10" :=
  ⟨(c2_dispatcher "abc def").1 rfl,
   (c2_dispatcher "SELECT id FROM t LIMIT 10").2 "SELECT id FROM t LIMIT 10" rfl⟩

/-- C3: for every non-empty input string, `optimize_sql` returns `ok` with a
non-empty result (no exception, no empty output). -/
theorem c3_nonempty (q : String) (hq : q ≠ "") :
    ∃ s, optimize_sql q = Except.ok s ∧ s ≠ "" := by
  cases hs : optimize_sql_with_sqlglot q with
  | some s => exact ⟨s, optimize_sql_of_some hs, structural_some_ne_empty hs⟩
  | none =>
    refine ⟨fallbackOut q, ?_, fallbackOut_ne_empty hq⟩
    rw [optimize_sql_of_none hs]
    exact rewriteFallback_ok hq

/-- Witness for C3 at a concrete non-empty input. -/
theorem c3_nonempty_witness :
    ("SELECT * FROM t" : String) ≠ "" ∧
    ∃ s, optimize_sql "SELECT * FROM t" = Except.ok s ∧ s ≠ "" :=
  ⟨by decide, c3_nonempty "SELECT * FROM t" (by decide)⟩

/-- C4: the structural rewriter never raises to its caller: a parse failure
yields null (optimizer.py:61-63), and on a successful parse the rewriter
deterministically returns its assembled result (the embedding of the
`try/except` body, which is total). -/
theorem c4_structural_never_raises (q : String) :
    (parse_one q = none → optimize_sql_with_sqlglot q = none) ∧
    (∀ t, parse_one q = some t → optimize_sql_with_sqlglot q = some (structuralCore t)) := by
  constructor
  · intro h
    unfold optimize_sql_with_sqlglot
    rw [h]
  · intro t h
    unfold optimize_sql_with_sqlglot
    rw [h]

/-- Witness for C4: the empty string fails to parse and yields null; a
well-formed query parses and yields the rewriter's output. -/
theorem c4_structural_never_raises_witness :
    optimize_sql_with_sqlglot "" = none ∧
    optimize_sql_with_sqlglot "SELECT id FROM t LIMIT 10" = some "SELECT id FROM t LIMIT 10" := by
  refine ⟨(c4_structural_never_raises "").1 rfl, ?_⟩
  rw [(c4_structural_never_raises "SELECT id FROM t LIMIT 10").2
    (.select (.cons (.column "id") .nil) (.some (.cons (.table "t") .nil)) .none (some 10)) rfl]
  rfl

set_option maxRecDepth 8000 in
/-- C5: `optimize_sql("SELECT * FROM t")` replaces the wildcard with the
placeholder columns `col1, col2`, keeps the `-- SELECT *` comment line, adds
`LIMIT 100`, and appends the explanation banner. -/
theorem c5_select_star :
    okContains (optimize_sql "SELECT * FROM t") "col1, col2" = true ∧
    okContains (optimize_sql "SELECT * FROM t") "-- SELECT *" = true ∧
    okContains (optimize_sql "SELECT * FROM t") "LIMIT 100" = true ∧
    okContains (optimize_sql "SELECT * FROM t") "-- What Was Optimized and Why:" = true := by
  refine ⟨?_, ?_, ?_, ?_⟩ <;> rfl

set_option maxRecDepth 8000 in
/-- C6: `optimize_sql("SELECT id FROM t WHERE id IN (SELECT id FROM u)")`
records a SubqueryInInClause finding and prepends the advisory CTE comment,
while the subquery stays in place in the output body (no CTE/`WITH`
introduced, the `IN (SELECT id FROM u)` text survives). -/
theorem c6_subquery_advisory :
    okContains (optimize_sql "SELECT id FROM t WHERE id IN (SELECT id FROM u)")
      "-- Consider using a CTE for the subquery in IN clause." = true ∧
    okContains (optimize_sql "SELECT id FROM t WHERE id IN (SELECT id FROM u)")
      "IN (SELECT id FROM u)" = true ∧
    okContains (optimize_sql "SELECT id FROM t WHERE id IN (SELECT id FROM u)")
      "WITH" = false ∧
    ∃ t, parse_one "SELECT id FROM t WHERE id IN (SELECT id FROM u)" = some t ∧
      sIn ∈ structSugg t := by
  refine ⟨rfl, rfl, rfl,
    ⟨.select (.cons (.column "id") .nil) (.some (.cons (.table "t") .nil))
      (.some (.inPred (.column "id") (.some (.sub (.select (.cons (.column "id") .nil)
        (.some (.cons (.table "u") .nil)) .none none))))) none, rfl, ?_⟩⟩
  decide

set_option maxRecDepth 8000 in
/-- C9: `optimize_sql("SELECT id FROM t LIMIT 10")` records no MissingLimit
finding: the output carries no `-- No pagination` comment and no `LIMIT 100`,
and the existing `LIMIT 10` clause survives unchanged. -/
theorem c9_existing_limit :
    optimize_sql "SELECT id FROM t LIMIT 10" = Except.ok "SELECT id FROM t LIMIT 10" ∧
    okContains (optimize_sql "SELECT id FROM t LIMIT 10") "-- No pagination" = false ∧
    okContains (optimize_sql "SELECT id FROM t LIMIT 10") "LIMIT 100" = false ∧
    okContains (optimize_sql "SELECT id FROM t LIMIT 10") "LIMIT 10" = true ∧
    ∃ t, parse_one "SELECT id FROM t LIMIT 10" = some t ∧ sLim ∉ structSugg t := by
  refine ⟨rfl, rfl, rfl, rfl,
    ⟨.select (.cons (.column "id") .nil) (.some (.cons (.table "t") .nil)) .none (some 10),
      rfl, ?_⟩⟩
  decide

theorem getFrom_stTree1 (es : SqlList) (f : SqlListOpt) (w : SqlOpt) (l : Option Nat) :
    SqlExpr.getFrom (stTree1 (.select es f w l)) = SqlExpr.getFrom (.select es f w l) := by
  obtain ⟨es2, h⟩ := stTree1_shape es f w l
  rw [h]
  cases f <;> rfl

/-- C7: for every successfully parsed query, the structural rewriter records
an ImplicitJoin finding if and only if the top-level from-clause holds
exactly two expressions that are both plain table references (in the tree
representation an explicit join never sits in that list, optimizer.py:31-34);
and in exactly that case the from-clause is restructured into the original
first table followed by an INNER join on the placeholder condition
`<join_condition>` (optimizer.py:38-39). -/
theorem c7_structural_implicit_join (q : String) (t : SqlExpr)
    (hp : parse_one q = some t) :
    (sJoin ∈ structSugg t ↔ ∃ a b, SqlExpr.getFrom t = some [.table a, .table b]) ∧
    (∀ a b, SqlExpr.getFrom t = some [.table a, .table b] →
      SqlExpr.getFrom (stTree2 t) =
        some [.table a, .join (.table b) (.condition "<join_condition>") "INNER"]) := by
  obtain ⟨es, f, w, l, ht⟩ := parse_root hp
  subst ht
  have hgf := getFrom_stTree1 es f w l
  constructor
  · have hmem : sJoin ∈ structSugg (.select es f w l) ↔
        stJoin (.select es f w l) = true := by
      have d1 : sJoin ≠ sStar := by decide
      have d3 : sJoin ≠ sIn := by decide
      have d4 : sJoin ≠ sLim := by decide
      simp [structSugg, mem_ite_singleton, d1, d3, d4]
    rw [hmem]
    unfold stJoin
    rw [hgf]
    cases hf : SqlExpr.getFrom (.select es f w l) with
    | none => simp
    | some ts =>
      rcases ts with _ | ⟨a, _ | ⟨b, _ | ⟨c, r⟩⟩⟩
      · simp
      · simp
      · cases a <;> cases b <;> simp [SqlExpr.isTable]
      · simp
  · intro a b hf
    obtain ⟨es2, h1⟩ := stTree1_shape es f w l
    have hsc : SqlExpr.getFrom (stTree1 (.select es f w l)) =
        some [.table a, .table b] := hgf.trans hf
    simp only [stTree2, hsc]
    rw [h1]
    simp [SqlExpr.isTable, SqlExpr.setFrom, SqlExpr.getFrom, SqlList.ofList, SqlList.toList]

/-- Witness for C7 at the parsed query `"SELECT id FROM a, b"`: the finding
is recorded and the from-clause is restructured. -/
theorem c7_structural_implicit_join_witness :
    sJoin ∈ structSugg (.select (.cons (.column "id") .nil)
      (.some (.cons (.table "a") (.cons (.table "b") .nil))) .none none) ∧
    SqlExpr.getFrom (stTree2 (.select (.cons (.column "id") .nil)
      (.some (.cons (.table "a") (.cons (.table "b") .nil))) .none none)) =
      some [.table "a", .join (.table "b") (.condition "<join_condition>") "INNER"] := by
  have h := c7_structural_implicit_join "SELECT id FROM a, b"
    (.select (.cons (.column "id") .nil)
      (.some (.cons (.table "a") (.cons (.table "b") .nil))) .none none) rfl
  exact ⟨h.1.mpr ⟨"a", "b", rfl⟩, h.2 "a" "b" rfl⟩

/-! ## C8: the fallback implicit-join detector -/

theorem all_take_runLen (f : Char → Bool) : ∀ l : List Char, ((l.take (runLen f l)).all f) = true := by
  intro l
  induction l with
  | nil => rfl
  | cons c cs ih =>
    by_cases h : f c
    · simp [runLen, h, ih]
    · simp [runLen, h]

theorem all_drop_of_all {f : Char → Bool} {l : List Char} (n : Nat) (h : l.all f = true) :
    ((l.drop n).all f) = true := by
  rw [List.all_eq_true] at *
  intro c hc
  exact h c (List.mem_of_mem_drop hc)

theorem all_class_of_all_space {l : List Char} (h : l.all isSpaceC = true) :
    l.all isFromClassC = true := by
  rw [List.all_eq_true] at *
  intro c hc
  have hs := h c hc
  simp only [isFromClassC]
  simp only [decide_eq_true_eq] at hs ⊢
  simp [hs]

theorem fromAt_group_class {l : List Char} {n : Nat} {g : List Char}
    (h : fromAt l = some (n, g)) : g.all isFromClassC = true := by
  unfold fromAt at h
  cases hm : matchCI "from".data l with
  | none => rw [hm] at h; exact absurd h (by simp)
  | some r =>
    simp only [hm] at h
    split at h
    · exact absurd h (by simp)
    · split at h
      · simp only [Option.some.injEq, Prod.mk.injEq] at h
        obtain ⟨-, hg⟩ := h
        subst hg
        exact all_take_runLen _ _
      · split at h
        · simp only [Option.some.injEq, Prod.mk.injEq] at h
          obtain ⟨-, hg⟩ := h
          subst hg
          exact all_class_of_all_space (all_drop_of_all _ (all_take_runLen _ _))
        · exact absurd h (by simp)

theorem searchFrom_group_class : ∀ (l g : List Char), searchFrom l = some g →
    g.all isFromClassC = true := by
  intro l
  induction l with
  | nil =>
    intro g h
    have he : searchFrom ([] : List Char) = none := rfl
    rw [he] at h
    exact absurd h (by simp)
  | cons c cs ih =>
    intro g h
    unfold searchFrom at h
    cases hm : fromAt (c :: cs) with
    | some p =>
      obtain ⟨m, g2⟩ := p
      simp only [hm, Option.some.injEq] at h
      subst h
      exact fromAt_group_class hm
    | none =>
      simp only [hm] at h
      exact ih g h

/-- C8 (counterexample): the fallback's implicit-join detector does not match
the table list "only up to the next clause keyword".  On
`"SELECT id FROM a WHERE b, c LIMIT 5"` the regex `FROM\s+([\w\s,]+)` matches
right across `WHERE` and `LIMIT` (group `"a WHERE b, c LIMIT 5"`), whereas
the list cut at the next clause keyword is just `"a "` and holds no comma —
yet an ImplicitJoin finding is recorded. -/
theorem c8_counterexample :
    searchFrom "SELECT id FROM a WHERE b, c LIMIT 5".data =
      some "a WHERE b, c LIMIT 5".data ∧
    specFromList "SELECT id FROM a WHERE b, c LIMIT 5" = some "a ".data ∧
    "a ".data.contains ',' = false ∧
    sJoin ∈ fallbackSugg "SELECT id FROM a WHERE b, c LIMIT 5" := by
  refine ⟨rfl, rfl, rfl, ?_⟩
  decide

/-- C8 (amended): the fallback implicit-join detector matches the from-clause
list up to the next character that is not a word character, whitespace or
comma (which can lie beyond clause keywords such as `WHERE`); it records an
ImplicitJoin finding exactly when that matched list contains a comma, and it
rewrites the text with `FROM {t0} JOIN {t1} ON <join_condition>` exactly when
the comma-split of the list yields exactly two entries (optimizer.py:87-94). -/
theorem c8_fallback_implicit_join (q : String) :
    (sJoin ∈ fallbackSugg q ↔ ∃ g, searchFrom q.data = some g ∧ g.contains ',' = true)
    ∧ (∀ g, searchFrom q.data = some g → g.all isFromClassC = true)
    ∧ (∀ g a b, searchFrom q.data = some g → g.contains ',' = true → tablesOf g = [a, b] →
        fbOq2 q = subFromAll (mkJoinRep a b) (fbOq1 q))
    ∧ (∀ g, searchFrom q.data = some g → g.contains ',' = true →
        (∀ a b, tablesOf g ≠ [a, b]) → fbOq2 q = fbOq1 q) := by
  refine ⟨?_, fun g h => searchFrom_group_class _ g h, ?_, ?_⟩
  · have hmem : sJoin ∈ fallbackSugg q ↔ fb2 q = true := by
      have d1 : sJoin ≠ sStar := by decide
      have d3 : sJoin ≠ sIn := by decide
      have d4 : sJoin ≠ sLim := by decide
      have d5 : sJoin ≠ sDedup := by decide
      simp [fallbackSugg, mem_ite_singleton, d1, d3, d4, d5]
    rw [hmem]
    unfold fb2
    cases hs : searchFrom q.data with
    | none => simp
    | some g => simp
  · intro g a b hs hc htab
    unfold fbOq2
    simp only [hs, hc, htab, if_true]
  · intro g hs hc hneq
    unfold fbOq2
    simp only [hs, hc, if_true]

/-- Witness for C8 at the concrete query of the counterexample: the detector
fires and the two-entry split triggers the substitution. -/
theorem c8_fallback_implicit_join_witness :
    sJoin ∈ fallbackSugg "SELECT id FROM a WHERE b, c LIMIT 5" ∧
    fbOq2 "SELECT id FROM a WHERE b, c LIMIT 5" =
      subFromAll (mkJoinRep "a WHERE b".data "c LIMIT 5".data)
        (fbOq1 "SELECT id FROM a WHERE b, c LIMIT 5") := by
  have h := c8_fallback_implicit_join "SELECT id FROM a WHERE b, c LIMIT 5"
  exact ⟨h.1.mpr ⟨"a WHERE b, c LIMIT 5".data, rfl, by decide⟩,
    h.2.2.1 "a WHERE b, c LIMIT 5".data "a WHERE b".data "c LIMIT 5".data rfl
      (by decide) (by decide)⟩

/-! ## C10: paired comments/explanations and the banner -/

theorem fallback_counts (q : String) : (fallbackSugg q).length = (fallbackExpl q).length := by
  unfold fallbackSugg fallbackExpl
  cases fb1 q <;> cases fb2 q <;> cases fb3 q <;> cases fb4 q <;> cases fb5 q <;> simp

theorem struct_counts (t : SqlExpr) : (structSugg t).length = (structExpl t).length := by
  unfold structSugg structExpl
  cases stStar t <;> cases stJoin t <;> cases stIn t <;> cases stLim t <;> simp

theorem st_flags_of_sugg_nil {t : SqlExpr} (h : structSugg t = []) :
    stStar t = false ∧ stJoin t = false ∧ stIn t = false ∧ stLim t = false := by
  unfold structSugg at h
  cases h1 : stStar t <;> cases h2 : stJoin t <;> cases h3 : stIn t <;> cases h4 : stLim t <;>
    first
      | exact ⟨rfl, rfl, rfl, rfl⟩
      | simp [h1, h2, h3, h4] at h

theorem structExpl_nil_of_flags {t : SqlExpr} (h1 : stStar t = false) (h2 : stJoin t = false)
    (h3 : stIn t = false) (h4 : stLim t = false) : structExpl t = [] := by
  simp [structExpl, h1, h2, h3, h4]

theorem stTree2_of_flags {t : SqlExpr} (h1 : stStar t = false) (h2 : stJoin t = false) :
    stTree2 t = t := by
  have e1 : stTree1 t = t := by simp [stTree1, h1]
  unfold stTree2
  rw [e1]
  cases hf : SqlExpr.getFrom t with
  | none => rfl
  | some ts =>
    rcases ts with _ | ⟨a, _ | ⟨b, _ | ⟨c, r⟩⟩⟩
    · rfl
    · rfl
    · unfold stJoin at h2
      rw [e1] at h2
      simp only [hf] at h2
      simp [h2]
    · rfl

theorem structuralCore_of_sugg_nil {t : SqlExpr} (h : structSugg t = []) :
    structuralCore t = serializeE t := by
  obtain ⟨h1, h2, h3, h4⟩ := st_flags_of_sugg_nil h
  have e2 := stTree2_of_flags h1 h2
  unfold structuralCore
  rw [h, structExpl_nil_of_flags h1 h2 h3 h4]
  simp [addComments, addExplanations, stBody2, stBody, h3, h4, e2]

theorem hasBanner_addExplanations {expl : List String} (s : String) (h : expl ≠ []) :
    hasBannerB (addExplanations expl s) = true := by
  have hni : expl.isEmpty = false := by
    cases expl with
    | nil => exact absurd rfl h
    | cons a as => rfl
  have he : addExplanations expl s =
      s ++ "\n-- What Was Optimized and Why:\n-- " ++ String.intercalate "\n-- " expl := by
    unfold addExplanations
    simp [hni]
  rw [he]
  unfold hasBannerB
  apply containsL_of_eq (s.data ++ ['\n'])
    ("\n-- ".data ++ (String.intercalate "\n-- " expl).data)
  rw [strData_append, strData_append]
  have hmid : ("\n-- What Was Optimized and Why:\n-- ").data =
      '\n' :: (bannerLine.data ++ "\n-- ".data) := rfl
  rw [hmid]
  simp

/-- C10 (counterexample): the banner can appear in the output although zero
findings were detected.  The input `"-- What Was Optimized and Why:\n)( LIMIT 5"`
fails the structural parser — the dangling `)(` after the comment is a parse
error for sqlglot as well as for the parser model — so the real dispatcher
routes it to the fallback; there no detector fires (a `LIMIT` with a numeric
bound is present, and no select-star, from-clause, or IN-subquery pattern
occurs), so the fallback returns the input verbatim, banner line included,
with an empty finding list — "banner appears iff at least one finding" fails
in the right-to-left direction. -/
theorem c10_counterexample :
    optimize_sql "-- What Was Optimized and Why:\n)( LIMIT 5" =
      Except.ok "-- What Was Optimized and Why:\n)( LIMIT 5" ∧
    fallbackSugg "-- What Was Optimized and Why:\n)( LIMIT 5" = [] ∧
    hasBannerB "-- What Was Optimized and Why:\n)( LIMIT 5" = true := ⟨rfl, rfl, rfl⟩

/-- C10 (amended): in both rewriter paths every finding contributes exactly
one comment line and one explanation line, so the comment and explanation
lists always have equal length; the rewriters append the banner if and only
if at least one finding was detected — hence for inputs (and serialized
trees) that do not already contain the banner text, the banner appears in
the output iff at least one finding was detected. -/
theorem c10_banner_counts (q : String) (t : SqlExpr) (hq : q ≠ "")
    (hqb : hasBannerB q = false) (htb : hasBannerB (serializeE t) = false) :
    ((fallbackSugg q).length = (fallbackExpl q).length ∧
      ∃ s, rewriteFallback q = Except.ok s ∧ (hasBannerB s = true ↔ fallbackSugg q ≠ [])) ∧
    ((structSugg t).length = (structExpl t).length ∧
      (hasBannerB (structuralCore t) = true ↔ structSugg t ≠ [])) := by
  constructor
  · refine ⟨fallback_counts q, fallbackOut q, rewriteFallback_ok hq, ?_, ?_⟩
    · intro hb
      by_contra hnil
      rw [fallbackOut_of_sugg_nil hnil, hqb] at hb
      simp at hb
    · intro hne
      have hexpl : fallbackExpl q ≠ [] := by
        intro h0
        apply hne
        have hc := fallback_counts q
        rw [h0] at hc
        exact List.length_eq_zero.mp hc
      unfold fallbackOut
      exact hasBanner_addExplanations _ hexpl
  · refine ⟨struct_counts t, ?_, ?_⟩
    · intro hb
      by_contra hnil
      rw [structuralCore_of_sugg_nil hnil, htb] at hb
      simp at hb
    · intro hne
      have hexpl : structExpl t ≠ [] := by
        intro h0
        apply hne
        have hc := struct_counts t
        rw [h0] at hc
        exact List.length_eq_zero.mp hc
      unfold structuralCore
      exact hasBanner_addExplanations _ hexpl

/-- Witness for C10 at a banner-free input and a banner-free tree. -/
theorem c10_banner_counts_witness :
    ((fallbackSugg "abc def").length = (fallbackExpl "abc def").length ∧
      ∃ s, rewriteFallback "abc def" = Except.ok s ∧
        (hasBannerB s = true ↔ fallbackSugg "abc def" ≠ [])) ∧
    ((structSugg (.select (.cons (.column "x") .nil) .none .none none)).length =
      (structExpl (.select (.cons (.column "x") .nil) .none .none none)).length ∧
      (hasBannerB (structuralCore (.select (.cons (.column "x") .nil) .none .none none)) = true ↔
        structSugg (.select (.cons (.column "x") .nil) .none .none none) ≠ [])) :=
  c10_banner_counts "abc def" (.select (.cons (.column "x") .nil) .none .none none)
    (by decide) (by decide) (by decide)

end SqlGenie
